import Mathlib

/-!
Verification of the canvas, scheduler, overlay, and initialization layers of
the pyxel-style engine (crates/engine/src/canvas.rs,
crates/pyxel-engine/src/system.rs, crates/pyxel-engine/src/pyxel.rs).

Machine integers are modelled as `Int`/`Nat` (all values involved stay inside
the i32/u32 ranges in the claims considered); `f64` timestamps in the
scheduler are modelled as exact rationals, so the floor computed by the
`as u32` cast is `Int.floor` of the exact quotient.
-/

namespace PyxelSpec

/-- Modelled from the spec: `Rectarea` (crates/engine/src/rectarea.rs is not in
the sources shown). Integer-coordinate axis-aligned rectangle
`{left, top, width, height}` with `width, height ≥ 0`,
`right = left + width − 1`, `bottom = top + height − 1`; empty when either
dimension is 0. -/
structure Rectarea where
  left : Int
  top : Int
  width : Nat
  height : Nat
  deriving Repr, DecidableEq

namespace Rectarea

def with_size (left top : Int) (width height : Nat) : Rectarea :=
  ⟨left, top, width, height⟩

def right (r : Rectarea) : Int := r.left + r.width - 1

def bottom (r : Rectarea) : Int := r.top + r.height - 1

/-- Point containment; per the spec a point at `left+width` / `top+height` is
not contained, and an empty rectangle contains no point (its `right` is
`left − 1`). -/
def contains (r : Rectarea) (x y : Int) : Prop :=
  r.left ≤ x ∧ x ≤ r.right ∧ r.top ≤ y ∧ y ≤ r.bottom

instance (r : Rectarea) (x y : Int) : Decidable (r.contains x y) := by
  unfold contains; infer_instance

/-- Modelled from the spec: intersection is pointwise min/max, with an empty
result preserved (an empty rectangle when the clamped bounds cross). -/
def intersects (r other : Rectarea) : Rectarea :=
  let l := max r.left other.left
  let t := max r.top other.top
  let rt := min r.right other.right
  let bt := min r.bottom other.bottom
  if l ≤ rt ∧ t ≤ bt then
    ⟨l, t, (rt - l + 1).toNat, (bt - t + 1).toNat⟩
  else
    ⟨0, 0, 0, 0⟩

end Rectarea

/-- The `Canvas<T>` trait state of crates/engine/src/canvas.rs: pixel grid
(`data`, indexed `[y][x]`, modelled as a total map since every guarded access
stays inside `self_rect`), dimensions, the clip rectangle, and the
`get_render_color` palette substitution (abstract in the trait, a field
here). The trait in canvas.rs has no camera field. -/
structure Canvas (T : Type) where
  width : Nat
  height : Nat
  data : Int → Int → T
  clip_rect : Rectarea
  get_render_color : T → T

namespace Canvas

variable {T : Type}

def self_rect (c : Canvas T) : Rectarea :=
  ⟨0, 0, c.width, c.height⟩

/-- Embedding of `set_clip_area` of canvas.rs: the requested `i32` width/height go through
`(w as f64) as u32`, which in Rust saturates: negative values become 0
(`Int.toNat` is exactly this clamp for i32-range inputs). -/
def set_clip_area (c : Canvas T) (left top width height : Int) : Canvas T :=
  { c with clip_rect :=
      c.self_rect.intersects (Rectarea.with_size left top width.toNat height.toNat) }

/-- Embedding of `get_color` (pget) of canvas.rs. -/
def get_color [Inhabited T] (c : Canvas T) (x y : Int) : T :=
  if c.self_rect.contains x y then c.data y x else default

/-- Embedding of `draw_point` (pset) of canvas.rs: applies `get_render_color`, then writes
when `(x, y)` is inside `self_rect`. The source tests `self_rect`, not
`clip_rect`, and applies no camera translation. -/
def draw_point (c : Canvas T) (x y : Int) (color : T) : Canvas T :=
  let color := c.get_render_color color
  if c.self_rect.contains x y then
    { c with data := fun yy xx => if yy = y ∧ xx = x then color else c.data yy xx }
  else
    c

end Canvas

/-! ## Line drawing (spec-modelled)

The `draw_line` body in canvas.rs is an empty stub; per the spec the
primitive implementations live on the concrete `Image` canvas, which is not
in the sources shown. The definitions below are modelled from the spec:
"Bresenham over integer endpoints; endpoints inclusive", each produced point
written through the clip test with palette substitution (§4.2; the trait in
canvas.rs carries no camera, so the camera offset is zero here). -/

/-- Modelled from the spec: round-to-nearest division `⌊a / b + 1/2⌋` used to
pick the minor-axis coordinate of the Bresenham/midpoint line. -/
def rdiv (a b : Int) : Int := (2 * a + b) / (2 * b)

/-- Modelled from the spec: the points of the Bresenham line from `(x1, y1)`
to `(x2, y2)`, both endpoints inclusive: the major axis takes
`max |dx| |dy| + 1` evenly spaced steps and the minor axis rounds to the
nearest grid cell. -/
def linePoints (x1 y1 x2 y2 : Int) : List (Int × Int) :=
  let dx := x2 - x1
  let dy := y2 - y1
  let steps : Int := max |dx| |dy|
  (List.range (steps.toNat + 1)).map
    (fun i : Nat =>
      (x1 + rdiv (dx * (i : Int)) steps, y1 + rdiv (dy * (i : Int)) steps))

namespace Canvas

variable {T : Type}

/-- Modelled from the spec: a single pixel write of a drawing primitive,
clip-tested against `clip_rect` with palette substitution (§4.2). -/
def pset_clip (c : Canvas T) (x y : Int) (color : T) : Canvas T :=
  if c.clip_rect.contains x y then
    { c with data := fun yy xx =>
        if yy = y ∧ xx = x then c.get_render_color color else c.data yy xx }
  else
    c

/-- Writing a list of points with one color, in order. -/
def write_points (ps : List (Int × Int)) (color : T) (c : Canvas T) : Canvas T :=
  ps.foldl (fun acc p => acc.pset_clip p.1 p.2 color) c

/-- Modelled from the spec: `draw_line` (line) draws the Bresenham points
between the integer endpoints, endpoints inclusive. -/
def draw_line (c : Canvas T) (x1 y1 x2 y2 : Int) (color : T) : Canvas T :=
  write_points (linePoints x1 y1 x2 y2) color c

end Canvas

/-! ## Frame scheduler (crates/pyxel-engine/src/system.rs, `process_frame`) -/

/-- The two callback invocations a scheduler tick can issue (`update_frame`
and `draw_frame` in system.rs). -/
inductive SchedEvent where
  | update
  | draw
  deriving Repr, DecidableEq

/-- The scheduler state of `System` in system.rs that `process_frame` reads
and writes, together with `Pyxel.frame_count`. `MAX_ELAPSED_MS` (from
settings.rs, not in the sources shown) is kept as a field so every claim is
parametric in it. `f64` millisecond values are modelled as exact rationals. -/
structure Sched where
  one_frame_ms : ℚ
  next_update_ms : ℚ
  max_elapsed_ms : ℚ
  frame_count : Nat
  deriving DecidableEq

/-- Embedding of `process_frame` of system.rs, for one host tick whose single clock value
is `now` (the code reads `elapsed_time()` a second time inside the cap
branch; within one tick that read returns the same `now`). Returns the new
state and the ordered list of callback invocations issued. The `as u32`
cast of the nonnegative `f64` quotient truncates, i.e. takes the floor. -/
def process_frame (s : Sched) (now : ℚ) : Sched × List SchedEvent :=
  let elapsed_ms := now - s.next_update_ms
  if elapsed_ms < 0 then
    (s, [])
  else if s.frame_count = 0 then
    ({ s with next_update_ms := now + s.one_frame_ms,
              frame_count := s.frame_count + 1 },
     [SchedEvent.update, SchedEvent.draw])
  else
    let update_count : Nat :=
      if elapsed_ms > s.max_elapsed_ms then 1
      else ⌊elapsed_ms / s.one_frame_ms⌋.toNat + 1
    let next' : ℚ :=
      if elapsed_ms > s.max_elapsed_ms then now + s.one_frame_ms
      else s.next_update_ms + s.one_frame_ms * update_count
    ({ s with next_update_ms := next',
              frame_count := s.frame_count + update_count },
     List.replicate (update_count - 1) SchedEvent.update ++
       [SchedEvent.update, SchedEvent.draw])

/-! ## Overlays (system.rs `draw_perf_monitor` / `draw_cursor`)

The screen is the concrete `Image` of crates/pyxel-engine (image.rs is not
in the sources shown): its canvas carries `data`, `clip_rect`, `camera_x`,
`camera_y`, and the image carries `palette`. The pixel grid is kept abstract
(`D`), since the overlay claims are about everything except the pixels. -/

/-- The screen state touched by the overlay code in system.rs: the fields of
`screen.canvas` it saves/restores plus `screen.palette`. -/
structure Screen (D : Type) where
  width : Nat
  height : Nat
  data : D
  clip_rect : Rectarea
  camera_x : Int
  camera_y : Int
  palette : Nat → Nat

namespace Screen

variable {D : Type}

/-- Modelled from the spec: `clip0` (reset_clip_area) sets
`clip_rect ← self_rect` (image.rs is not in the sources shown). -/
def clip0 (s : Screen D) : Screen D :=
  { s with clip_rect := ⟨0, 0, s.width, s.height⟩ }

/-- Modelled from the spec: `camera0` (reset_camera) sets the camera offset
to `(0, 0)`. -/
def camera0 (s : Screen D) : Screen D :=
  { s with camera_x := 0, camera_y := 0 }

/-- Modelled from the spec: `pal src dst` (set_palette) sets
`palette[src] ← dst`. -/
def pal (s : Screen D) (src dst : Nat) : Screen D :=
  { s with palette := Function.update s.palette src dst }

/-- Embedding of `draw_perf_monitor` of system.rs. The six `text` calls only draw pixels
(per the spec, drawing operations write `data` through camera/clip/palette
and change nothing else); they are modelled by an arbitrary `textOps` that
may read the whole screen state but only replaces `data`. -/
def draw_perf_monitor (enabled : Bool) (textOps : Screen D → D)
    (s : Screen D) : Screen D :=
  if !enabled then s
  else
    let clip_rect := s.clip_rect
    let camera_x := s.camera_x
    let camera_y := s.camera_y
    let palette1 := s.palette 1
    let palette2 := s.palette 2
    let s1 := ((s.clip0.camera0.pal 1 1).pal 2 9)
    let s2 := { s1 with data := textOps s1 }
    let s3 := { s2 with clip_rect := clip_rect, camera_x := camera_x,
                        camera_y := camera_y }
    (s3.pal 1 palette1).pal 2 palette2

/-- Embedding of `draw_cursor` of system.rs. `NUM_COLORS = 16` per the spec's normative
constants. The early returns (mouse not visible, cursor fully off screen)
are driven by `visible` and `inBounds`; the `blt` of the cursor sprite only
draws pixels and is modelled by an arbitrary `bltOp` replacing `data`. -/
def draw_cursor (visible inBounds : Bool) (bltOp : Screen D → D)
    (s : Screen D) : Screen D :=
  if !visible then s
  else if !inBounds then s
  else
    let clip_rect := s.clip_rect
    let camera_x := s.camera_x
    let camera_y := s.camera_y
    let palette := s.palette
    let s1 := (List.range 16).foldl (fun acc i => acc.pal i (16 + i))
      s.clip0.camera0
    let s2 := { s1 with data := bltOp s1 }
    { s2 with clip_rect := clip_rect, camera_x := camera_x,
              camera_y := camera_y, palette := palette }

end Screen

/-! ## Initialization (crates/pyxel-engine/src/pyxel.rs `init`) -/

/-- Normative constants from the spec (settings.rs is not in the sources
shown): `NUM_IMAGES = 3`, `NUM_TILEMAPS = 8`, image and tilemap side 256. -/
def NUM_IMAGES : Nat := 3

def NUM_TILEMAPS : Nat := 8

def IMAGE_SIZE : Nat := 256

def TILEMAP_SIZE : Nat := 256

/-- A shared (reference-counted) image handle, modelled by the identity of
the allocation: `Image::new` returns a fresh id, `clone()` copies the id. -/
abbrev ImageHandle := Nat

/-- Modelled from the spec: `Tilemap::new(width, height, image)` stores the given image handle as the
tile source (tilemap.rs is not in the sources shown; the handle argument in
pyxel.rs is `images[0].clone()`). -/
structure TilemapModel where
  width : Nat
  height : Nat
  image : ImageHandle
  deriving Repr, DecidableEq

/-- The object-bank part of the `Pyxel` facade built by `init` that the
claims mention. -/
structure PyxelModel where
  width : Nat
  height : Nat
  frame_count : Nat
  images : List ImageHandle
  tilemaps : List TilemapModel
  screen : ImageHandle

/-- The object bank constructed by the body of `init` in pyxel.rs, after the
init-once check has passed. `Image::new` allocations are numbered in program
order: the image bank gets ids `0..NUM_IMAGES`, then the screen is the next
fresh id; each tilemap stores `images[0].clone()`, i.e. the id of bank
entry 0. -/
def buildPyxel (width height : Nat) : PyxelModel :=
  let images := (List.range NUM_IMAGES).map (fun i => i)
  let tilemaps := (List.range NUM_TILEMAPS).map
    (fun _ => TilemapModel.mk TILEMAP_SIZE TILEMAP_SIZE (images.getD 0 0))
  { width := width
    height := height
    frame_count := 0
    images := images
    tilemaps := tilemaps
    screen := NUM_IMAGES }

/-- Embedding of `init` of pyxel.rs: `IS_INITIALIZED.swap(true, Relaxed)` returns the old
flag and sets it to `true`; when the old flag was already `true` the call
panics with "Pyxel already initialized" (modelled as `Except.error`),
otherwise the facade is built. The result carries the new flag value. -/
def init (is_initialized : Bool) (width height : Nat) :
    Except String (PyxelModel × Bool) :=
  if is_initialized then Except.error "Pyxel already initialized"
  else Except.ok (buildPyxel width height, true)

/-! ## Concrete fixtures used to evaluate the theorems -/

/-- A 4×4 all-zero `Nat` canvas whose clip rectangle is the 2×2 top-left
corner (a strict subset of `self_rect`) and whose palette is the identity. -/
def testCanvas : Canvas Nat :=
  { width := 4
    height := 4
    data := fun _ _ => 0
    clip_rect := ⟨0, 0, 2, 2⟩
    get_render_color := fun c => c }

/-- A 4×4 all-zero `Nat` canvas with the full clip rectangle. -/
def testCanvasFull : Canvas Nat :=
  { width := 4
    height := 4
    data := fun _ _ => 0
    clip_rect := ⟨0, 0, 4, 4⟩
    get_render_color := fun c => c }

/-- A scheduler state past its first frame: frame length 10 ms, next update
due at 100 ms, catch-up cap 100 ms. -/
def testSched : Sched :=
  { one_frame_ms := 10
    next_update_ms := 100
    max_elapsed_ms := 100
    frame_count := 5 }

/-!
# Theorems
-/

/-! ## Rectangle lemmas -/

/-- A point is in the intersection exactly when it is in both rectangles. -/
theorem Rectarea.contains_intersects {r other : Rectarea} {x y : Int} :
    (r.intersects other).contains x y ↔ r.contains x y ∧ other.contains x y := by
  simp only [intersects]
  split
  next hc =>
    simp only [contains, right, bottom] at hc ⊢
    omega
  next hc =>
    simp only [contains, right, bottom] at hc ⊢
    omega

theorem Rectarea.contains_intersects_left {r other : Rectarea} {x y : Int}
    (h : (r.intersects other).contains x y) : r.contains x y :=
  (Rectarea.contains_intersects.mp h).1

theorem Rectarea.contains_intersects_right {r other : Rectarea} {x y : Int}
    (h : (r.intersects other).contains x y) : other.contains x y :=
  (Rectarea.contains_intersects.mp h).2

/-! ## C4: pget -/

/-- C4: for every canvas, `pget` of a coordinate outside `self_rect` returns
the default pixel value (so the out-of-range read never reaches the grid),
and `pget` of a coordinate inside `self_rect` returns `data[y][x]`. -/
theorem get_color_default_outside {T : Type} [Inhabited T]
    (c : Canvas T) (x y : Int) :
    (¬ c.self_rect.contains x y → c.get_color x y = default) ∧
    (c.self_rect.contains x y → c.get_color x y = c.data y x) := by
  constructor
  · intro h
    simp [Canvas.get_color, h]
  · intro h
    simp [Canvas.get_color, h]

/-- Witness for C4 on the concrete canvas: `(-1, 0)` is outside the 4×4
`self_rect` and reads 0 (= default); `(1, 1)` is inside and reads the cell. -/
theorem get_color_default_outside_witness :
    testCanvas.get_color (-1) 0 = default ∧
    testCanvas.get_color 1 1 = testCanvas.data 1 1 :=
  ⟨(get_color_default_outside testCanvas (-1) 0).1 (by decide),
   (get_color_default_outside testCanvas 1 1).2 (by decide)⟩

/-! ## C5: set_clip_area invariant -/

/-- C5: after `set_clip_area(l, t, w, h)` the clip rectangle is contained in
`self_rect` (every point of the new clip rectangle lies in `self_rect`), and
it equals the intersection of `self_rect` with the requested rectangle (whose
`i32` width/height are clamped to `u32` by the float cast). -/
theorem set_clip_area_subset {T : Type} (c : Canvas T)
    (l t w h x y : Int) :
    ((c.set_clip_area l t w h).clip_rect.contains x y →
      c.self_rect.contains x y) ∧
    (c.set_clip_area l t w h).clip_rect =
      c.self_rect.intersects (Rectarea.with_size l t w.toNat h.toNat) := by
  refine ⟨fun hx => ?_, rfl⟩
  exact Rectarea.contains_intersects_left hx

/-- Witness for C5: requesting clip `(1,1,2,2)` on the 4×4 canvas yields a
clip rectangle containing `(2, 2)`, which is therefore inside `self_rect`. -/
theorem set_clip_area_subset_witness :
    testCanvas.self_rect.contains 2 2 ∧
    (testCanvas.set_clip_area 1 1 2 2).clip_rect =
      testCanvas.self_rect.intersects (Rectarea.with_size 1 1 2 2) :=
  ⟨(set_clip_area_subset testCanvas 1 1 2 2 2 2).1 (by decide),
   (set_clip_area_subset testCanvas 1 1 2 2 0 0).2⟩

/-! ## C9: set_clip_area on negative sizes -/

/-- C9: `set_clip_area` is total for all integer arguments; a negative
requested width or height is saturated to 0 by the `as f64 as u32` cast, so
the resulting clip rectangle is empty (contains no point) rather than
wrapping around, and it is still contained in `self_rect`. -/
theorem set_clip_area_negative_empty {T : Type} (c : Canvas T)
    (l t w h : Int) (hneg : w < 0 ∨ h < 0) :
    (∀ x y, ¬ (c.set_clip_area l t w h).clip_rect.contains x y) ∧
    (∀ x y, (c.set_clip_area l t w h).clip_rect.contains x y →
      c.self_rect.contains x y) := by
  refine ⟨fun x y hx => ?_, fun x y hx => Rectarea.contains_intersects_left hx⟩
  have hreq := Rectarea.contains_intersects_right hx
  simp only [Rectarea.contains, Rectarea.with_size, Rectarea.right,
    Rectarea.bottom] at hreq
  rcases hneg with hw | hh
  · have : w.toNat = 0 := Int.toNat_of_nonpos hw.le
    omega
  · have : h.toNat = 0 := Int.toNat_of_nonpos hh.le
    omega

/-- Witness for C9: requesting a clip area of width −1 yields a clip
rectangle that does not contain `(0, 0)`. -/
theorem set_clip_area_negative_empty_witness :
    ¬ (testCanvas.set_clip_area 0 0 (-1) 2).clip_rect.contains 0 0 :=
  (set_clip_area_negative_empty testCanvas 0 0 (-1) 2 (Or.inl (by decide))).1 0 0

/-! ## C1: pset -/

/-- Counterexample to C1 as stated: on the 4×4 canvas whose clip rectangle is
the 2×2 corner, the point `(3, 3)` is outside `clip_rect` (camera is absent,
i.e. the offset is zero), so the claim requires the cell to stay unchanged;
but `draw_point` tests `self_rect` only and overwrites the cell with 5. -/
theorem draw_point_ignores_clip_counterexample :
    ¬ testCanvas.clip_rect.contains 3 3 ∧
    testCanvas.data 3 3 = 0 ∧
    (testCanvas.draw_point 3 3 5).data 3 3 = 5 := by
  refine ⟨by decide, rfl, ?_⟩
  simp [Canvas.draw_point, testCanvas, Rectarea.contains, Rectarea.right,
    Rectarea.bottom, Canvas.self_rect]

/-- C1 amended: after `pset(x, y, c)`, if `(x, y)` lies in `self_rect` (not
`clip_rect`; no camera translation is applied) then `pget(x, y)` equals
`palette(c)`; otherwise the canvas is unchanged. -/
theorem draw_point_self_rect_spec {T : Type} [Inhabited T]
    (c : Canvas T) (x y : Int) (color : T) :
    (c.self_rect.contains x y →
      (c.draw_point x y color).get_color x y = c.get_render_color color) ∧
    (¬ c.self_rect.contains x y → c.draw_point x y color = c) := by
  constructor
  · intro h
    simp only [Canvas.self_rect] at h
    simp [Canvas.draw_point, Canvas.get_color, Canvas.self_rect, h]
  · intro h
    simp only [Canvas.self_rect] at h
    simp [Canvas.draw_point, Canvas.self_rect, h]

/-- Witness for the amended C1: on the concrete canvas, `(3, 3)` is inside
`self_rect`, so after `pset(3, 3, 5)` the read returns the palette image of
5; `(9, 9)` is outside and the canvas is unchanged. -/
theorem draw_point_self_rect_spec_witness :
    (testCanvas.draw_point 3 3 5).get_color 3 3 = testCanvas.get_render_color 5 ∧
    testCanvas.draw_point 9 9 5 = testCanvas :=
  ⟨(draw_point_self_rect_spec testCanvas 3 3 5).1 (by decide),
   (draw_point_self_rect_spec testCanvas 9 9 5).2 (by decide)⟩

/-! ## C2: scheduler catch-up cap -/

/-- C2: on a tick with `frame_count > 0` whose elapsed time exceeds
`MAX_ELAPSED_MS` (the cap being nonnegative, as the `u32` constant is), the
scheduler issues exactly one update and one draw, no catch-up updates, and
resets `next_update_ms` to `now + one_frame_ms`, dropping the accumulated
debt; `frame_count` advances by exactly one. -/
theorem process_frame_catchup_cap (s : Sched) (now : ℚ)
    (hframe : 0 < s.frame_count) (hmax : 0 ≤ s.max_elapsed_ms)
    (hcap : now - s.next_update_ms > s.max_elapsed_ms) :
    process_frame s now =
      ({ s with next_update_ms := now + s.one_frame_ms,
                frame_count := s.frame_count + 1 },
       [SchedEvent.update, SchedEvent.draw]) := by
  have h0 : ¬ now - s.next_update_ms < 0 := by linarith
  have hne : s.frame_count ≠ 0 := Nat.pos_iff_ne_zero.mp hframe
  simp only [process_frame, h0, if_false, hne, if_true, hcap, if_pos,
    if_neg, List.replicate, Nat.sub_self]
  simp [hcap]

/-- Witness for C2: with a 10 ms frame, `next_update_ms = 100`, cap 100 and
`now = 300` (elapsed 200 > 100), the tick issues one update and one draw and
resets `next_update_ms` to 310. -/
theorem process_frame_catchup_cap_witness :
    process_frame testSched 300 =
      ({ testSched with next_update_ms := 310, frame_count := 6 },
       [SchedEvent.update, SchedEvent.draw]) := by
  have h := process_frame_catchup_cap testSched 300 (by decide)
    (by norm_num [testSched]) (by norm_num [testSched])
  rw [h]
  norm_num [testSched]

/-! ## C3: scheduler normal tick -/

/-- C3: on a tick with `frame_count > 0` and `0 ≤ elapsed ≤ MAX_ELAPSED_MS`,
the scheduler runs `update_count = ⌊elapsed / one_frame_ms⌋ + 1` updates:
first `update_count − 1` catch-up updates with no draw, then one final
update followed by one draw; `next_update_ms` advances by
`one_frame_ms × update_count` and `frame_count` by `update_count`. -/
theorem process_frame_normal_tick (s : Sched) (now : ℚ)
    (hframe : 0 < s.frame_count) (hpos : 0 < s.one_frame_ms)
    (h0 : 0 ≤ now - s.next_update_ms)
    (hcap : now - s.next_update_ms ≤ s.max_elapsed_ms) :
    process_frame s now =
      ({ s with
          next_update_ms := s.next_update_ms + s.one_frame_ms *
            ((⌊(now - s.next_update_ms) / s.one_frame_ms⌋.toNat : Nat) + 1),
          frame_count := s.frame_count +
            (⌊(now - s.next_update_ms) / s.one_frame_ms⌋.toNat + 1) },
       List.replicate ⌊(now - s.next_update_ms) / s.one_frame_ms⌋.toNat
           SchedEvent.update ++
         [SchedEvent.update, SchedEvent.draw]) := by
  have h0' : ¬ now - s.next_update_ms < 0 := not_lt.mpr h0
  have hne : s.frame_count ≠ 0 := Nat.pos_iff_ne_zero.mp hframe
  have hcap' : ¬ now - s.next_update_ms > s.max_elapsed_ms := not_lt.mpr hcap
  simp only [process_frame, h0', if_false, hne, hcap', if_neg, if_true,
    Nat.add_sub_cancel]
  norm_cast

/-- Witness for C3: with a 10 ms frame, `next_update_ms = 100`, cap 100 and
`now = 125` (elapsed 25, floor 2), the tick issues two catch-up updates, one
final update and one draw, advancing `next_update_ms` to 130 and
`frame_count` from 5 to 8. -/
theorem process_frame_normal_tick_witness :
    process_frame testSched 125 =
      ({ testSched with next_update_ms := 130, frame_count := 8 },
       [SchedEvent.update, SchedEvent.update, SchedEvent.update,
        SchedEvent.draw]) := by
  have h := process_frame_normal_tick testSched 125 (by decide)
    (by norm_num [testSched]) (by norm_num [testSched]) (by norm_num [testSched])
  rw [h]
  have hfloor : ⌊((125 : ℚ) - testSched.next_update_ms) / testSched.one_frame_ms⌋ = 2 := by
    norm_num [testSched]
  rw [hfloor]
  have h2 : (2 : ℤ).toNat = 2 := rfl
  rw [h2]
  norm_num [testSched, List.replicate]

/-! ## C6: overlay preservation -/

/-- Restoring the two saved palette entries after `pal 1 1` and `pal 2 9`
yields the original palette. -/
theorem update_pal12_restore (p : Nat → Nat) :
    Function.update (Function.update (Function.update (Function.update
      p 1 1) 2 9) 1 (p 1)) 2 (p 2) = p := by
  funext i
  by_cases h2 : i = 2
  · subst h2; simp [Function.update]
  · by_cases h1 : i = 1
    · subst h1; simp [Function.update]
    · simp [Function.update, h1, h2]

/-- C6: composing the perf-monitor overlay and the cursor overlay (in the
order `draw_frame` runs them, after the user `draw` callback returned)
leaves the screen's `clip_rect`, camera offset, and palette mapping equal to
their values before the overlays, for every screen state, every enabled /
visibility flag, and whatever pixels the `text` and `blt` calls produce. -/
theorem overlays_preserve_draw_state {D : Type} (s : Screen D)
    (enabled : Bool) (textOps bltOp : Screen D → D)
    (visible inBounds : Bool) :
    (Screen.draw_cursor visible inBounds bltOp
        (Screen.draw_perf_monitor enabled textOps s)).clip_rect = s.clip_rect ∧
    (Screen.draw_cursor visible inBounds bltOp
        (Screen.draw_perf_monitor enabled textOps s)).camera_x = s.camera_x ∧
    (Screen.draw_cursor visible inBounds bltOp
        (Screen.draw_perf_monitor enabled textOps s)).camera_y = s.camera_y ∧
    (Screen.draw_cursor visible inBounds bltOp
        (Screen.draw_perf_monitor enabled textOps s)).palette = s.palette := by
  have hperf : ∀ t : Screen D,
      (Screen.draw_perf_monitor enabled textOps t).clip_rect = t.clip_rect ∧
      (Screen.draw_perf_monitor enabled textOps t).camera_x = t.camera_x ∧
      (Screen.draw_perf_monitor enabled textOps t).camera_y = t.camera_y ∧
      (Screen.draw_perf_monitor enabled textOps t).palette = t.palette := by
    intro t
    cases enabled with
    | false => simp [Screen.draw_perf_monitor]
    | true =>
      refine ⟨?_, ?_, ?_, ?_⟩ <;>
        simp [Screen.draw_perf_monitor, Screen.clip0, Screen.camera0,
          Screen.pal, update_pal12_restore]
  have hcursor : ∀ t : Screen D,
      (Screen.draw_cursor visible inBounds bltOp t).clip_rect = t.clip_rect ∧
      (Screen.draw_cursor visible inBounds bltOp t).camera_x = t.camera_x ∧
      (Screen.draw_cursor visible inBounds bltOp t).camera_y = t.camera_y ∧
      (Screen.draw_cursor visible inBounds bltOp t).palette = t.palette := by
    intro t
    cases visible with
    | false => simp [Screen.draw_cursor]
    | true =>
      cases inBounds with
      | false => simp [Screen.draw_cursor]
      | true =>
        refine ⟨?_, ?_, ?_, ?_⟩ <;> simp [Screen.draw_cursor]
  obtain ⟨hc1, hc2, hc3, hc4⟩ := hcursor (Screen.draw_perf_monitor enabled textOps s)
  obtain ⟨hp1, hp2, hp3, hp4⟩ := hperf s
  exact ⟨hc1.trans hp1, hc2.trans hp2, hc3.trans hp3, hc4.trans hp4⟩

/-! ## C8: single-shot initialization -/

/-- C8: initialization is single-shot. A first call (init flag clear)
succeeds and constructs the facade, returning the flag set; any later call
finds the flag set and aborts with the "Pyxel already initialized"
diagnostic instead of returning a facade, whatever its arguments. -/
theorem init_single_shot (w h w2 h2 : Nat) :
    init false w h = Except.ok (buildPyxel w h, true) ∧
    (∀ p flag, init false w h = Except.ok (p, flag) →
      init flag w2 h2 = Except.error "Pyxel already initialized") := by
  refine ⟨rfl, fun p flag hok => ?_⟩
  have hflag : flag = true := by
    have := hok.symm.trans (rfl : init false w h = Except.ok (buildPyxel w h, true))
    simpa using congrArg (fun e => match e with
      | Except.ok (_, b) => b
      | Except.error _ => false) this
  subst hflag
  rfl

/-- Witness for C8: the flag returned by the first call (160×120) makes the
second call (100×100) fail with the double-init diagnostic. -/
theorem init_single_shot_witness :
    init true 100 100 = Except.error "Pyxel already initialized" :=
  (init_single_shot 160 120 100 100).2 (buildPyxel 160 120) true rfl

/-! ## C10: tilemaps share image bank entry 0 -/

/-- C10: after `init`, the tilemap bank has `NUM_TILEMAPS` entries and every
tilemap holds the same shared handle, the one of image bank entry 0, as its
tile-source image. -/
theorem tilemaps_share_image0 (w h : Nat) :
    (buildPyxel w h).tilemaps.length = NUM_TILEMAPS ∧
    (buildPyxel w h).tilemaps.map TilemapModel.image =
      List.replicate NUM_TILEMAPS ((buildPyxel w h).images.getD 0 0) ∧
    (buildPyxel w h).images.length = NUM_IMAGES := by
  refine ⟨rfl, ?_, rfl⟩
  rfl

/-! ## C7: line endpoints -/

theorem rdiv_zero {b : Int} (hb : 0 ≤ b) : rdiv 0 b = 0 := by
  rw [rdiv]
  rcases eq_or_lt_of_le hb with hb' | hb'
  · rw [← hb']
    rfl
  · have h1 : (2 : Int) * 0 + b = b := by ring
    rw [h1]
    exact Int.ediv_eq_zero_of_lt hb (by omega)

theorem rdiv_mul_cancel {s : Int} (d : Int) (hs : 0 < s) :
    rdiv (d * s) s = d := by
  rw [rdiv]
  have h1 : (2 : Int) * (d * s) + s = s + 2 * s * d := by ring
  rw [h1, Int.add_mul_ediv_left s d (by omega),
    Int.ediv_eq_zero_of_lt hs.le (by omega)]
  ring

/-- The first point the line produces is the first endpoint. -/
theorem startpoint_mem_linePoints (x1 y1 x2 y2 : Int) :
    (x1, y1) ∈ linePoints x1 y1 x2 y2 := by
  simp only [linePoints, List.mem_map]
  refine ⟨0, List.mem_range.mpr (Nat.succ_pos _), ?_⟩
  have hs : (0 : Int) ≤ max |x2 - x1| |y2 - y1| :=
    le_max_of_le_left (abs_nonneg _)
  simp [rdiv_zero hs]

/-- The last point the line produces is the second endpoint. -/
theorem endpoint_mem_linePoints (x1 y1 x2 y2 : Int) :
    (x2, y2) ∈ linePoints x1 y1 x2 y2 := by
  simp only [linePoints, List.mem_map]
  have hs0 : (0 : Int) ≤ max |x2 - x1| |y2 - y1| :=
    le_max_of_le_left (abs_nonneg _)
  refine ⟨(max |x2 - x1| |y2 - y1|).toNat,
    List.mem_range.mpr (Nat.lt_succ_self _), ?_⟩
  have hcast : (((max |x2 - x1| |y2 - y1|).toNat : Nat) : Int) =
      max |x2 - x1| |y2 - y1| := Int.toNat_of_nonneg hs0
  rw [hcast]
  rcases eq_or_lt_of_le hs0 with hz | hpos
  · have hdx : x2 - x1 = 0 := by
      have h1 : |x2 - x1| ≤ max |x2 - x1| |y2 - y1| := le_max_left _ _
      rw [← hz] at h1
      exact abs_eq_zero.mp (le_antisymm h1 (abs_nonneg _))
    have hdy : y2 - y1 = 0 := by
      have h1 : |y2 - y1| ≤ max |x2 - x1| |y2 - y1| := le_max_right _ _
      rw [← hz] at h1
      exact abs_eq_zero.mp (le_antisymm h1 (abs_nonneg _))
    rw [← hz]
    simp only [mul_zero, Prod.mk.injEq, rdiv_zero le_rfl]
    omega
  · rw [rdiv_mul_cancel _ hpos, rdiv_mul_cancel _ hpos]
    simp only [Prod.mk.injEq]
    omega

theorem pset_clip_clip_rect {T : Type} (c : Canvas T) (x y : Int) (color : T) :
    (c.pset_clip x y color).clip_rect = c.clip_rect := by
  rw [Canvas.pset_clip]
  split <;> rfl

theorem pset_clip_grc {T : Type} (c : Canvas T) (x y : Int) (color : T) :
    (c.pset_clip x y color).get_render_color = c.get_render_color := by
  rw [Canvas.pset_clip]
  split <;> rfl

/-- The cell values after one clip-tested write. -/
theorem pset_clip_data {T : Type} (c : Canvas T) (px py x y : Int)
    (color : T) :
    (c.pset_clip px py color).data y x =
      if c.clip_rect.contains px py ∧ y = py ∧ x = px
      then c.get_render_color color else c.data y x := by
  rw [Canvas.pset_clip]
  by_cases hc : c.clip_rect.contains px py
  · rw [if_pos hc]
    dsimp only
    by_cases hxy : y = py ∧ x = px
    · rw [if_pos hxy, if_pos ⟨hc, hxy⟩]
    · rw [if_neg hxy, if_neg (fun hh => hxy hh.2)]
  · rw [if_neg hc, if_neg (fun hh => hc hh.1)]

/-- After a sequence of clip-tested writes of the same color, a cell either
holds the palette image of that color or its original value. -/
theorem write_points_data_cases {T : Type} (ps : List (Int × Int)) (color : T)
    (x y : Int) :
    ∀ c : Canvas T,
      (Canvas.write_points ps color c).data y x = c.get_render_color color ∨
      (Canvas.write_points ps color c).data y x = c.data y x := by
  induction ps with
  | nil => intro c; right; rfl
  | cons p tl ih =>
    intro c
    show (Canvas.write_points tl color (c.pset_clip p.1 p.2 color)).data y x =
        c.get_render_color color ∨
      (Canvas.write_points tl color (c.pset_clip p.1 p.2 color)).data y x =
        c.data y x
    rcases ih (c.pset_clip p.1 p.2 color) with h | h
    · left
      rw [h, pset_clip_grc]
    · rw [h, pset_clip_data]
      split
      · left
        rfl
      · right
        rfl

/-- A cell that is among the written points and passes the clip test holds
the palette image of the written color afterwards. -/
theorem write_points_data_mem {T : Type} (ps : List (Int × Int)) (color : T) :
    ∀ (c : Canvas T) (x y : Int), (x, y) ∈ ps →
      c.clip_rect.contains x y →
      (Canvas.write_points ps color c).data y x = c.get_render_color color := by
  induction ps with
  | nil =>
    intro c x y hmem _
    cases hmem
  | cons p tl ih =>
    intro c x y hmem hclip
    show (Canvas.write_points tl color (c.pset_clip p.1 p.2 color)).data y x = _
    obtain ⟨px, py⟩ := p
    rcases List.mem_cons.mp hmem with heq | htl
    · rw [Prod.mk.injEq] at heq
      obtain ⟨hx, hy⟩ := heq
      subst hx
      subst hy
      have hdata : (c.pset_clip x y color).data y x =
          c.get_render_color color := by
        rw [pset_clip_data, if_pos ⟨hclip, rfl, rfl⟩]
      rcases write_points_data_cases tl color x y (c.pset_clip x y color)
          with h | h
      · rw [h, pset_clip_grc]
      · rw [h, hdata]
    · have hclip' : (c.pset_clip px py color).clip_rect.contains x y := by
        rw [pset_clip_clip_rect]
        exact hclip
      rw [ih (c.pset_clip px py color) x y htl hclip', pset_clip_grc]

/-- C7 (spec-modelled: the `draw_line` body in canvas.rs is a stub): the
line from `(x1, y1)` to `(x2, y2)` includes both endpoints among its
Bresenham points, and after drawing, each endpoint cell that passes the clip
test holds the palette image of the requested color. -/
theorem draw_line_endpoints_inclusive {T : Type} (c : Canvas T)
    (x1 y1 x2 y2 : Int) (color : T) :
    (x1, y1) ∈ linePoints x1 y1 x2 y2 ∧
    (x2, y2) ∈ linePoints x1 y1 x2 y2 ∧
    (c.clip_rect.contains x1 y1 →
      (c.draw_line x1 y1 x2 y2 color).data y1 x1 = c.get_render_color color) ∧
    (c.clip_rect.contains x2 y2 →
      (c.draw_line x1 y1 x2 y2 color).data y2 x2 = c.get_render_color color) := by
  refine ⟨startpoint_mem_linePoints x1 y1 x2 y2,
    endpoint_mem_linePoints x1 y1 x2 y2, fun hc => ?_, fun hc => ?_⟩
  · exact write_points_data_mem (linePoints x1 y1 x2 y2) color c x1 y1
      (startpoint_mem_linePoints x1 y1 x2 y2) hc
  · exact write_points_data_mem (linePoints x1 y1 x2 y2) color c x2 y2
      (endpoint_mem_linePoints x1 y1 x2 y2) hc

/-- Witness for C7: on the 4×4 canvas with the full clip rectangle, the line
from `(0, 0)` to `(3, 2)` leaves color 5 in both endpoint cells. -/
theorem draw_line_endpoints_inclusive_witness :
    (testCanvasFull.draw_line 0 0 3 2 5).data 0 0 = 5 ∧
    (testCanvasFull.draw_line 0 0 3 2 5).data 2 3 = 5 :=
  ⟨(draw_line_endpoints_inclusive testCanvasFull 0 0 3 2 5).2.2.1 (by decide),
   (draw_line_endpoints_inclusive testCanvasFull 0 0 3 2 5).2.2.2 (by decide)⟩

end PyxelSpec
